import Mathlib

/-!
Verification of the real-time call/session orchestration subsystem of the
staffinterface server (src/unnamed/part_000).

The server keeps its state in JavaScript `Map`s (`activeCalls`,
`incomingCallRequests`, `videoCallRequests`, `pendingVideoCalls`,
`pendingStaffCalls`, `connectedUsers`, ...). A JS `Map` is modelled as an
insertion-ordered association list with unique keys: `set` replaces in place
or appends, `delete` removes the key, iteration follows insertion order.
Socket.io emissions are modelled as an `Emission` list returned by each
handler; `io.to(sid).emit` targets one socket, `socket.to(room).emit`
targets a room, `io.emit` broadcasts to every connected socket.
Times are integers (JS `Date` milliseconds).
-/

namespace StaffInterface

/-- Insertion-ordered association list standing for a JS `Map` with string keys. -/
abbrev MapList (α : Type) := List (String × α)

/-- JS `Map.get`: first (= only) entry with the key. -/
def mapLookup {α : Type} : MapList α → String → Option α
  | [], _ => none
  | (k', v) :: rest, k => if k' = k then some v else mapLookup rest k

/-- JS `Map.get(k) || d` with a default. -/
def mapLookupD {α : Type} (m : MapList α) (k : String) (d : α) : α :=
  (mapLookup m k).getD d

/-- JS `Map.set`: replace in place if the key exists, else append (insertion order kept). -/
def mapSet {α : Type} : MapList α → String → α → MapList α
  | [], k, v => [(k, v)]
  | (k', v') :: rest, k, v =>
      if k' = k then (k, v) :: rest else (k', v') :: mapSet rest k v

/-- JS `Map.delete`: remove the entry with the key (a JS Map never holds duplicates). -/
def mapDelete {α : Type} (m : MapList α) (k : String) : MapList α :=
  m.filter (fun e => e.1 ≠ k)

/-- Destination of a socket.io emission. -/
inductive Target where
  | socket (sid : String)
  | room (name : String)
  | all
deriving DecidableEq, Repr

/-- One socket.io emission: destination, event name, JSON payload flattened
to string key/value pairs. -/
structure Emission where
  target : Target
  event : String
  fields : List (String × String)
deriving DecidableEq, Repr

/-- Entry of `activeCalls`: `{ callId, clientSocketId, staffSocketId, startTime, status }`. -/
structure CallSession where
  callId : String
  clientSocketId : String
  staffSocketId : String
  startTime : Int
  status : String
deriving DecidableEq, Repr

/-- Entry of `connectedUsers`. -/
structure ConnUser where
  name : String
  role : String
  email : String
deriving DecidableEq, Repr

/-- Entry of `incomingCallRequests` (socket event `call-request`). -/
structure IncomingCallRequest where
  requestId : String
  clientSocketId : String
  clientId : String
  clientName : String
  staffEmail : String
deriving DecidableEq, Repr

/-- Entry of `videoCallRequests` / `pendingVideoCalls`. -/
structure VideoCallRequest where
  requestId : String
  staffId : String
  staffName : String
  staffDepartment : String
  clientName : String
  clientSocketId : String
  status : String
  accepted : Bool
deriving DecidableEq, Repr

/-- Entry of the `pendingStaffCalls` queues (POST /api/staff/call-request). -/
structure QueuedCall where
  callId : String
  clientName : String
  purpose : String
deriving DecidableEq, Repr

theorem mapLookup_mapSet_self {α : Type} (m : MapList α) (k : String) (v : α) :
    mapLookup (mapSet m k v) k = some v := by
  induction m with
  | nil => simp [mapSet, mapLookup]
  | cons e rest ih =>
      obtain ⟨k', v'⟩ := e
      by_cases h : k' = k
      · simp [mapSet, mapLookup, h]
      · simp [mapSet, mapLookup, h, ih]

theorem mapLookup_mapDelete_self {α : Type} (m : MapList α) (k : String) :
    mapLookup (mapDelete m k) k = none := by
  induction m with
  | nil => simp [mapDelete, mapLookup]
  | cons e rest ih =>
      obtain ⟨k', v'⟩ := e
      by_cases h : k' = k
      · simpa [mapDelete, mapLookup, h] using ih
      · simpa [mapDelete, mapLookup, h] using ih

/-! ## Validated WebRTC signaling relays -/

/-- Handler `socket.on('offer')`: looks up the session by `callId`; emits
`signaling-error` when the session is missing or the sender is neither bound
connection; otherwise forwards to the other participant with `from`/`callId`. -/
def onOffer (activeCalls : MapList CallSession) (senderSid offer callId : String) :
    List Emission :=
  match mapLookup activeCalls callId with
  | none =>
      [⟨Target.socket senderSid, "signaling-error", [("message", "Invalid call session")]⟩]
  | some cs =>
      if senderSid ≠ cs.clientSocketId ∧ senderSid ≠ cs.staffSocketId then
        [⟨Target.socket senderSid, "signaling-error",
          [("message", "Unauthorized signaling attempt")]⟩]
      else
        let targetSocketId :=
          if senderSid = cs.clientSocketId then cs.staffSocketId else cs.clientSocketId
        [⟨Target.socket targetSocketId, "offer",
          [("offer", offer), ("from", senderSid), ("callId", callId)]⟩]

/-- Handler `socket.on('answer')`: same gate as `onOffer`, forwards the answer. -/
def onAnswer (activeCalls : MapList CallSession) (senderSid answer callId : String) :
    List Emission :=
  match mapLookup activeCalls callId with
  | none =>
      [⟨Target.socket senderSid, "signaling-error", [("message", "Invalid call session")]⟩]
  | some cs =>
      if senderSid ≠ cs.clientSocketId ∧ senderSid ≠ cs.staffSocketId then
        [⟨Target.socket senderSid, "signaling-error",
          [("message", "Unauthorized signaling attempt")]⟩]
      else
        let targetSocketId :=
          if senderSid = cs.clientSocketId then cs.staffSocketId else cs.clientSocketId
        [⟨Target.socket targetSocketId, "answer",
          [("answer", answer), ("from", senderSid), ("callId", callId)]⟩]

/-- Handler `socket.on('ice-candidate')`: same gate, forwards the candidate. -/
def onIceCandidate (activeCalls : MapList CallSession)
    (senderSid candidate callId : String) : List Emission :=
  match mapLookup activeCalls callId with
  | none =>
      [⟨Target.socket senderSid, "signaling-error", [("message", "Invalid call session")]⟩]
  | some cs =>
      if senderSid ≠ cs.clientSocketId ∧ senderSid ≠ cs.staffSocketId then
        [⟨Target.socket senderSid, "signaling-error",
          [("message", "Unauthorized signaling attempt")]⟩]
      else
        let targetSocketId :=
          if senderSid = cs.clientSocketId then cs.staffSocketId else cs.clientSocketId
        [⟨Target.socket targetSocketId, "ice-candidate",
          [("candidate", candidate), ("from", senderSid), ("callId", callId)]⟩]

/-! ## Room-scoped signaling (underscore events, no validation) -/

/-- Payload of the room-scoped signaling events (`data.sessionId`,
`data.callId`, rest of the payload). JS falsy empty strings are modelled
as `none`. -/
structure RoomSignalData where
  sessionId : Option String
  callId : Option String
  payload : String
deriving DecidableEq, Repr

/-- The `data` object forwarded verbatim, flattened (absent ids become empty strings). -/
def roomSignalFields (data : RoomSignalData) : List (String × String) :=
  [("sessionId", data.sessionId.getD ""), ("callId", data.callId.getD ""),
   ("payload", data.payload)]

/-- Handler `socket.on('call_offer')`: `targetRoom = data.sessionId || data.callId`;
forward to that room if present, else `io.emit` to everyone. No participant check. -/
def onRoomCallOffer (_senderSid : String) (data : RoomSignalData) : List Emission :=
  match data.sessionId with
  | some room => [⟨Target.room room, "call_offer", roomSignalFields data⟩]
  | none =>
      match data.callId with
      | some room => [⟨Target.room room, "call_offer", roomSignalFields data⟩]
      | none => [⟨Target.all, "call_offer", roomSignalFields data⟩]

/-- Handler `socket.on('call_answer')`: same routing as `onRoomCallOffer`. -/
def onRoomCallAnswer (_senderSid : String) (data : RoomSignalData) : List Emission :=
  match data.sessionId with
  | some room => [⟨Target.room room, "call_answer", roomSignalFields data⟩]
  | none =>
      match data.callId with
      | some room => [⟨Target.room room, "call_answer", roomSignalFields data⟩]
      | none => [⟨Target.all, "call_answer", roomSignalFields data⟩]

/-- Handler `socket.on('ice_candidate')` (underscore event): same routing,
no participant check. -/
def onRoomIceCandidate (_senderSid : String) (data : RoomSignalData) : List Emission :=
  match data.sessionId with
  | some room => [⟨Target.room room, "ice_candidate", roomSignalFields data⟩]
  | none =>
      match data.callId with
      | some room => [⟨Target.room room, "ice_candidate", roomSignalFields data⟩]
      | none => [⟨Target.all, "ice_candidate", roomSignalFields data⟩]

/-! ## Disconnect cleanup of active calls -/

/-- The active-call cleanup loop of `socket.on('disconnect')`: iterate
`activeCalls` in insertion order; at the first session bound to the
disconnected socket, emit `call-ended` to the other participant (when its
socket id is truthy), delete that session, and `break`. Returns the new
`activeCalls` and the emissions. -/
def cleanupActiveCalls : MapList CallSession → String →
    MapList CallSession × List Emission
  | [], _ => ([], [])
  | (cid, cs) :: rest, sid =>
      if cs.clientSocketId = sid ∨ cs.staffSocketId = sid then
        let otherSocketId :=
          if cs.clientSocketId = sid then cs.staffSocketId else cs.clientSocketId
        let ems :=
          if otherSocketId ≠ "" then
            [⟨Target.socket otherSocketId, "call-ended",
              [("callId", cid), ("reason", "Other participant disconnected"),
               ("endedBy", "System")]⟩]
          else []
        (rest, ems)
      else
        let r := cleanupActiveCalls rest sid
        ((cid, cs) :: r.1, r.2)

/-! ## Derived staff status (GET /api/staff/status/:staffId) -/

/-- Busy check of the status route: only when an email-registered socket
exists is `activeCalls` scanned for a session whose staff side is that socket. -/
def isStaffBusy (activeCalls : MapList CallSession) (staffSocketId : Option String) :
    Bool :=
  match staffSocketId with
  | none => false
  | some sid => activeCalls.any (fun e => e.2.staffSocketId = sid)

/-- The status assignment chain of the route:
`status = 'offline'; if (isOnline) 'online'; if (inClass) 'in_class'; if (isBusy) 'busy'`.
Later assignments win. -/
def statusChain (isOnline inClass isBusy : Bool) : String :=
  let s0 := "offline"
  let s1 := if isOnline then "online" else s0
  let s2 := if inClass then "in_class" else s1
  if isBusy then "busy" else s2

/-- Route `GET /api/staff/status/:staffId`: `isOnline = staffSessions.has(staffId)`,
`isBusy` from `activeCalls` via the email-registered socket, `inClass` from the
external timetable read (a boolean collaborator result, computed independently
of connectivity), then the assignment chain. The
`check_teacher_availability` socket handler computes the same chain. -/
def staffStatusRoute (staffSessionsHasId : Bool) (staffSocketId : Option String)
    (activeCalls : MapList CallSession) (inClassFromTimetable : Bool) : String :=
  let isOnline := staffSessionsHasId
  let isBusy := isStaffBusy activeCalls staffSocketId
  let inClass := inClassFromTimetable
  statusChain isOnline inClass isBusy

/-! ## Email-targeted accept/reject (socket events call-accepted / call-rejected) -/

/-- Result of the `call-accepted` handler. -/
structure CallAcceptedResult where
  incomingCallRequests : MapList IncomingCallRequest
  activeCalls : MapList CallSession
  emissions : List Emission
deriving DecidableEq, Repr

/-- Handler `socket.on('call-accepted')`: look up the pending request; unknown
`requestId` is only logged (no emission, no state change). Otherwise insert a
new session into `activeCalls` under a fresh `callId` (no check that either
connection is free), notify client (`call-accepted`) and staff (`call-started`),
broadcast `staff_status_update busy` when `staffEmail` is truthy, and delete the
pending request. -/
def callAccepted (incoming : MapList IncomingCallRequest)
    (activeCalls : MapList CallSession) (senderSid requestId staffEmail staffName : String)
    (newCallId : String) (now : Int) : CallAcceptedResult :=
  match mapLookup incoming requestId with
  | none => ⟨incoming, activeCalls, []⟩
  | some pending =>
      let session : CallSession :=
        ⟨newCallId, pending.clientSocketId, senderSid, now, "in-progress"⟩
      let ems :=
        [⟨Target.socket pending.clientSocketId, "call-accepted",
          [("callId", newCallId), ("staffEmail", staffEmail),
           ("staffName", if staffName = "" then "Staff" else staffName)]⟩,
         ⟨Target.socket senderSid, "call-started",
          [("callId", newCallId), ("clientId", pending.clientId),
           ("clientName", if pending.clientName = "" then "Client" else pending.clientName)]⟩]
        ++ (if staffEmail ≠ "" then
              [⟨Target.all, "staff_status_update",
                [("staffEmail", staffEmail), ("status", "busy")]⟩]
            else [])
      ⟨mapDelete incoming requestId, mapSet activeCalls newCallId session, ems⟩

/-- Handler `socket.on('call-rejected')`: unknown `requestId` returns silently;
otherwise notify the requesting client and delete the pending request. -/
def callRejected (incoming : MapList IncomingCallRequest)
    (_senderSid requestId staffEmail reason : String) :
    MapList IncomingCallRequest × List Emission :=
  match mapLookup incoming requestId with
  | none => (incoming, [])
  | some pending =>
      (mapDelete incoming requestId,
       [⟨Target.socket pending.clientSocketId, "call-rejected",
         [("staffEmail", staffEmail),
          ("message", if reason = "" then "Staff declined the call" else reason)]⟩])

/-! ## Video-call response (socket event video-call-response) -/

/-- Result of the `video-call-response` handler. -/
structure VideoCallResponseResult where
  videoCallRequests : MapList VideoCallRequest
  pendingVideoCalls : MapList (List VideoCallRequest)
  activeCalls : MapList CallSession
  emissions : List Emission
deriving DecidableEq, Repr

/-- Handler `socket.on('video-call-response')`: look up the request in
`videoCallRequests` (never deleted from that map; no check that its status is
still pending). On accept: set status/accepted, notify client
(`video-call-accepted`) and staff (`video-call-accepted-staff`), insert a new
session into `activeCalls` under a fresh `callId`, and emit `call-started` to
both. On reject: set status rejected, notify client (`video-call-rejected`,
`clara-ai-reset`). Finally filter the request out of `pendingVideoCalls[staffId]`
(the `staffId` comes from the event data). -/
def videoCallResponse (vcrs : MapList VideoCallRequest)
    (pendingVC : MapList (List VideoCallRequest)) (activeCalls : MapList CallSession)
    (senderSid requestId : String) (accepted : Bool) (staffId newCallId : String)
    (now : Int) : VideoCallResponseResult :=
  match mapLookup vcrs requestId with
  | none =>
      ⟨vcrs, pendingVC, activeCalls,
       [⟨Target.socket senderSid, "video-call-error",
         [("message", "Video call request not found")]⟩]⟩
  | some req =>
      let pendingAfter :=
        mapSet pendingVC staffId
          ((mapLookupD pendingVC staffId []).filter (fun r => r.requestId ≠ requestId))
      if accepted then
        let req' := { req with status := "accepted", accepted := true }
        let session : CallSession :=
          ⟨newCallId, req.clientSocketId, senderSid, now, "connecting"⟩
        ⟨mapSet vcrs requestId req', pendingAfter,
         mapSet activeCalls newCallId session,
         [⟨Target.socket req.clientSocketId, "video-call-accepted",
           [("requestId", requestId), ("staffName", req.staffName)]⟩,
          ⟨Target.socket senderSid, "video-call-accepted-staff",
           [("requestId", requestId), ("clientName", req.clientName)]⟩,
          ⟨Target.socket req.clientSocketId, "call-started", [("callId", newCallId)]⟩,
          ⟨Target.socket senderSid, "call-started", [("callId", newCallId)]⟩]⟩
      else
        let req' := { req with status := "rejected" }
        ⟨mapSet vcrs requestId req', pendingAfter, activeCalls,
         [⟨Target.socket req.clientSocketId, "video-call-rejected",
           [("requestId", requestId), ("staffName", req.staffName)]⟩,
          ⟨Target.socket req.clientSocketId, "clara-ai-reset", []⟩]⟩

/-! ## End-call handling (socket event end-call) -/

/-- Attempted `StaffCallLog` upsert, keyed by (callId, staffEmail). -/
structure LogWrite where
  callId : String
  staffEmail : String
  status : String
  duration : Int
deriving DecidableEq, Repr

/-- Result of the `end-call` handler. -/
structure EndCallResult where
  activeCalls : MapList CallSession
  emissions : List Emission
  logWrites : List LogWrite
deriving DecidableEq, Repr

/-- Handler `socket.on('end-call')`: `call-error` when the sender is unknown,
the session is missing (as after a previous end already deleted it), or the
sender is neither bound connection. Otherwise: emit `call-ended` to the other
participant and to the sender, `call-completed-qr` and `clara-ai-reset` to the
client; then attempt the `StaffCallLog` upsert inside try/catch — `persistOk`
is the outcome of that external write, and a failure only skips the write (the
catch swallows it); finally delete the session from `activeCalls`
unconditionally. `durationSec = Math.floor((now - startTime) / 1000)`. -/
def endCall (connectedUsers : MapList ConnUser) (activeCalls : MapList CallSession)
    (senderSid callId reason : String) (dbConnected persistOk : Bool) (now : Int) :
    EndCallResult :=
  match mapLookup connectedUsers senderSid with
  | none =>
      ⟨activeCalls,
       [⟨Target.socket senderSid, "call-error", [("message", "User not authenticated")]⟩],
       []⟩
  | some user =>
      match mapLookup activeCalls callId with
      | none =>
          ⟨activeCalls,
           [⟨Target.socket senderSid, "call-error",
             [("message", "Call session not found")]⟩],
           []⟩
      | some cs =>
          if senderSid ≠ cs.clientSocketId ∧ senderSid ≠ cs.staffSocketId then
            ⟨activeCalls,
             [⟨Target.socket senderSid, "call-error",
               [("message", "Unauthorized call end attempt")]⟩],
             []⟩
          else
            let otherSocketId :=
              if senderSid = cs.clientSocketId then cs.staffSocketId
              else cs.clientSocketId
            let durationSec := (now - cs.startTime).fdiv 1000
            let ems :=
              [⟨Target.socket otherSocketId, "call-ended",
                [("callId", callId),
                 ("reason", if reason = "" then "Call ended by other participant"
                            else reason),
                 ("endedBy", user.name)]⟩,
               ⟨Target.socket senderSid, "call-ended",
                [("callId", callId),
                 ("reason", if reason = "" then "Call ended" else reason),
                 ("endedBy", user.name)]⟩,
               ⟨Target.socket cs.clientSocketId, "call-completed-qr",
                [("callId", callId)]⟩,
               ⟨Target.socket cs.clientSocketId, "clara-ai-reset", []⟩]
            let logWrites :=
              if dbConnected ∧ persistOk then
                match mapLookup connectedUsers cs.staffSocketId with
                | some staffInfo =>
                    if staffInfo.email ≠ "" then
                      [⟨callId, staffInfo.email, "completed", durationSec⟩]
                    else []
                | none => []
              else []
            ⟨mapDelete activeCalls callId, ems, logWrites⟩

/-- The `Call` document as updated at the end of `end-call`. -/
structure CallDoc where
  callId : String
  startTime : Int
  endTime : Int
  duration : Int
  status : String
deriving DecidableEq, Repr

/-- End-of-call database update:
`call.status = 'completed'; call.endTime = new Date();
call.duration = Math.floor((call.endTime - call.startTime) / 1000)`. -/
def completeCallDoc (c : CallDoc) (now : Int) : CallDoc :=
  { c with status := "completed", endTime := now,
           duration := (now - c.startTime).fdiv 1000 }

/-! ## Offline queueing and login drain -/

/-- POST /api/staff/call-request: when the staff socket is known, emit
`incoming-call-request` immediately; otherwise append the request to that
staff id's `pendingStaffCalls` queue (created empty on first use). -/
def submitStaffCallRequest (staffSocketId : Option String)
    (pendingSC : MapList (List QueuedCall)) (staffId : String) (call : QueuedCall) :
    MapList (List QueuedCall) × List Emission :=
  match staffSocketId with
  | some sid =>
      (pendingSC,
       [⟨Target.socket sid, "incoming-call-request",
         [("callId", call.callId), ("clientName", call.clientName),
          ("purpose", call.purpose)]⟩])
  | none =>
      (mapSet pendingSC staffId (mapLookupD pendingSC staffId [] ++ [call]), [])

/-- Result of the pending-delivery part of `staff-login`. -/
structure LoginDrainResult where
  pendingVideoCalls : MapList (List VideoCallRequest)
  pendingStaffCalls : MapList (List QueuedCall)
  emissions : List Emission
deriving DecidableEq, Repr

/-- Pending-delivery part of `socket.on('staff-login')` (after authentication):
if `pendingVideoCalls[userId]` is non-empty, emit one `pending-video-calls`
carrying those requests — the map entry is left as it is; then emit one
`new-call-request` per entry of `pendingStaffCalls[userId]` in queue order and
reset that queue to `[]`. -/
def loginNotifyPending (pendingVC : MapList (List VideoCallRequest))
    (pendingSC : MapList (List QueuedCall)) (userId staffSid : String) :
    LoginDrainResult :=
  let pendingRequests := mapLookupD pendingVC userId []
  let em1 :=
    if pendingRequests.length > 0 then
      [⟨Target.socket staffSid, "pending-video-calls",
        [("requests", String.intercalate "," (pendingRequests.map (·.requestId)))]⟩]
    else []
  let queuedCalls := mapLookupD pendingSC userId []
  let em2 := queuedCalls.map (fun c =>
    (⟨Target.socket staffSid, "new-call-request",
      [("callId", c.callId), ("clientName", c.clientName),
       ("purpose", c.purpose)]⟩ : Emission))
  let pendingSCAfter :=
    if queuedCalls.length > 0 then mapSet pendingSC userId [] else pendingSC
  ⟨pendingVC, pendingSCAfter, em1 ++ em2⟩

/-! ## Claim theorems -/

/-- Claim C6 (amended): the status chain of `GET /api/staff/status/:staffId`
realizes the precedence busy > in_class > online > offline, with `in_class`
computed from the timetable independently of connectivity; `busy` is only
possible when an email-registered socket exists. -/
theorem c6_status_precedence (isOnline : Bool) (staffSocketId : Option String)
    (ac : MapList CallSession) (inClass : Bool) :
    (isStaffBusy ac staffSocketId = true →
        staffStatusRoute isOnline staffSocketId ac inClass = "busy")
    ∧ (isStaffBusy ac staffSocketId = false → inClass = true →
        staffStatusRoute isOnline staffSocketId ac inClass = "in_class")
    ∧ (isStaffBusy ac staffSocketId = false → inClass = false → isOnline = true →
        staffStatusRoute isOnline staffSocketId ac inClass = "online")
    ∧ (isStaffBusy ac staffSocketId = false → inClass = false → isOnline = false →
        staffStatusRoute isOnline staffSocketId ac inClass = "offline")
    ∧ isStaffBusy ac none = false := by
  refine ⟨?_, ?_, ?_, ?_, rfl⟩ <;>
    · intros
      simp_all [staffStatusRoute, statusChain]

/-- Witness for C6 at concrete inputs: a connected staff whose socket "s" is
bound in `activeCalls` is reported busy even with a class in progress. -/
theorem c6_status_witness :
    staffStatusRoute true (some "s")
      [("call1", ⟨"call1", "c", "s", 0, "in-progress"⟩)] true = "busy" :=
  (c6_status_precedence true (some "s")
    [("call1", ⟨"call1", "c", "s", 0, "in-progress"⟩)] true).1 (by decide)

/-- Claim C6 counterexample: a disconnected staff identity
(`staffSessions.has = false`, no email-registered socket) whose timetable
shows a class in progress is reported `in_class`, not `offline` as the
claimed precedence offline > busy > in_class > online requires. -/
theorem c6_status_counterexample :
    staffStatusRoute false none [] true = "in_class"
    ∧ staffStatusRoute false none [] true ≠ "offline" := by
  exact ⟨rfl, by decide⟩

/-- Claim C10: the room-scoped signaling events `call_offer`, `call_answer`
and `ice_candidate` are forwarded for every sender without any participant
validation (each handler emits exactly one forward of the same event and
never an error), and when the payload has neither `sessionId` nor `callId`
the payload is broadcast to every connected socket. -/
theorem c10_room_signaling_no_validation (sid : String) (data : RoomSignalData) :
    ((onRoomCallOffer sid data).length = 1
      ∧ (onRoomCallAnswer sid data).length = 1
      ∧ (onRoomIceCandidate sid data).length = 1)
    ∧ (∀ e ∈ onRoomCallOffer sid data, e.event = "call_offer")
    ∧ (∀ e ∈ onRoomCallAnswer sid data, e.event = "call_answer")
    ∧ (∀ e ∈ onRoomIceCandidate sid data, e.event = "ice_candidate")
    ∧ (data.sessionId = none → data.callId = none →
        onRoomCallOffer sid data = [⟨Target.all, "call_offer", roomSignalFields data⟩]
        ∧ onRoomCallAnswer sid data = [⟨Target.all, "call_answer", roomSignalFields data⟩]
        ∧ onRoomIceCandidate sid data
            = [⟨Target.all, "ice_candidate", roomSignalFields data⟩]) := by
  obtain ⟨s, c, p⟩ := data
  refine ⟨⟨?_, ?_, ?_⟩, ?_, ?_, ?_, ?_⟩
  · cases s <;> cases c <;> simp [onRoomCallOffer]
  · cases s <;> cases c <;> simp [onRoomCallAnswer]
  · cases s <;> cases c <;> simp [onRoomIceCandidate]
  · cases s <;> cases c <;> simp [onRoomCallOffer]
  · cases s <;> cases c <;> simp [onRoomCallAnswer]
  · cases s <;> cases c <;> simp [onRoomIceCandidate]
  · intro hs hc
    simp only at hs hc
    subst hs; subst hc
    exact ⟨rfl, rfl, rfl⟩

/-- Witness for C10 at a concrete payload with neither id: all three events
broadcast to every connected socket. -/
theorem c10_room_signaling_witness :
    onRoomCallOffer "s1" ⟨none, none, "p"⟩
        = [⟨Target.all, "call_offer", roomSignalFields ⟨none, none, "p"⟩⟩]
    ∧ onRoomCallAnswer "s1" ⟨none, none, "p"⟩
        = [⟨Target.all, "call_answer", roomSignalFields ⟨none, none, "p"⟩⟩]
    ∧ onRoomIceCandidate "s1" ⟨none, none, "p"⟩
        = [⟨Target.all, "ice_candidate", roomSignalFields ⟨none, none, "p"⟩⟩] :=
  (c10_room_signaling_no_validation "s1" ⟨none, none, "p"⟩).2.2.2.2 rfl rfl

/-- Claim C2 (amended): for the validated signaling events `offer`, `answer`
and `ice-candidate`, a sender that is neither bound connection of the
session named by `callId` gets a single `signaling-error` back and nothing
is forwarded; a bound sender has the payload forwarded to the other bound
connection tagged with the sender and the `callId`. (The room-scoped
`ice_candidate` event is exempt: it forwards without validation, see the
counterexample.) -/
theorem c2_validated_relay_gate (ac : MapList CallSession) (sid payload callId : String)
    (cs : CallSession) (hlk : mapLookup ac callId = some cs) :
    (sid ≠ cs.clientSocketId ∧ sid ≠ cs.staffSocketId →
      onOffer ac sid payload callId
          = [⟨Target.socket sid, "signaling-error",
              [("message", "Unauthorized signaling attempt")]⟩]
      ∧ onAnswer ac sid payload callId
          = [⟨Target.socket sid, "signaling-error",
              [("message", "Unauthorized signaling attempt")]⟩]
      ∧ onIceCandidate ac sid payload callId
          = [⟨Target.socket sid, "signaling-error",
              [("message", "Unauthorized signaling attempt")]⟩])
    ∧ (sid = cs.clientSocketId ∨ sid = cs.staffSocketId →
      onOffer ac sid payload callId
          = [⟨Target.socket
                (if sid = cs.clientSocketId then cs.staffSocketId else cs.clientSocketId),
              "offer", [("offer", payload), ("from", sid), ("callId", callId)]⟩]
      ∧ onAnswer ac sid payload callId
          = [⟨Target.socket
                (if sid = cs.clientSocketId then cs.staffSocketId else cs.clientSocketId),
              "answer", [("answer", payload), ("from", sid), ("callId", callId)]⟩]
      ∧ onIceCandidate ac sid payload callId
          = [⟨Target.socket
                (if sid = cs.clientSocketId then cs.staffSocketId else cs.clientSocketId),
              "ice-candidate",
              [("candidate", payload), ("from", sid), ("callId", callId)]⟩]) := by
  constructor
  · intro h
    refine ⟨?_, ?_, ?_⟩ <;> simp [onOffer, onAnswer, onIceCandidate, hlk, h]
  · intro h
    have hn : ¬(sid ≠ cs.clientSocketId ∧ sid ≠ cs.staffSocketId) := by tauto
    refine ⟨?_, ?_, ?_⟩ <;> simp [onOffer, onAnswer, onIceCandidate, hlk, hn]

/-- Witness for C2 on a concrete session binding "c" and "s": the outside
sender "x" gets `signaling-error` from all three validated handlers. -/
theorem c2_validated_relay_witness :
    mapLookup [("call1", (⟨"call1", "c", "s", 0, "in-progress"⟩ : CallSession))] "call1"
        = some ⟨"call1", "c", "s", 0, "in-progress"⟩
    ∧ onOffer [("call1", ⟨"call1", "c", "s", 0, "in-progress"⟩)] "x" "sdp" "call1"
        = [⟨Target.socket "x", "signaling-error",
            [("message", "Unauthorized signaling attempt")]⟩] := by
  refine ⟨by decide, ?_⟩
  exact ((c2_validated_relay_gate
      [("call1", ⟨"call1", "c", "s", 0, "in-progress"⟩)] "x" "sdp" "call1"
      ⟨"call1", "c", "s", 0, "in-progress"⟩ (by decide)).1 (by decide)).1

/-- Claim C2 counterexample: an ICE-candidate signaling message naming
`callId = "call1"` sent through the `ice_candidate` event by "x" — not a
bound connection of the session for "call1", which binds "c" and "s" — is
forwarded to the `call1` room and no error is emitted back to the sender,
contradicting the claim for this signaling kind. -/
theorem c2_ice_candidate_counterexample :
    ("x" ≠ (⟨"call1", "c", "s", 0, "in-progress"⟩ : CallSession).clientSocketId
      ∧ "x" ≠ (⟨"call1", "c", "s", 0, "in-progress"⟩ : CallSession).staffSocketId)
    ∧ onRoomIceCandidate "x" ⟨none, some "call1", "cand"⟩
        = [⟨Target.room "call1", "ice_candidate",
            roomSignalFields ⟨none, some "call1", "cand"⟩⟩]
    ∧ (∀ e ∈ onRoomIceCandidate "x" ⟨none, some "call1", "cand"⟩,
        e.event ≠ "signaling-error" ∧ e.target ≠ Target.socket "x") := by
  refine ⟨by decide, rfl, by decide⟩

/-- Claim C1 (amended): on disconnect, the first session of `activeCalls`
(in insertion order) bound to the disconnected socket is removed and its
other participant receives exactly one `call-ended`; the loop then breaks,
so every later entry — bound to the socket or not — is left in place and
receives nothing. -/
theorem c1_disconnect_cleanup (pre post : MapList CallSession) (cid sid : String)
    (cs : CallSession)
    (hpre : ∀ e ∈ pre, ¬(e.2.clientSocketId = sid ∨ e.2.staffSocketId = sid))
    (hcs : cs.clientSocketId = sid ∨ cs.staffSocketId = sid)
    (hother : (if cs.clientSocketId = sid then cs.staffSocketId
               else cs.clientSocketId) ≠ "") :
    cleanupActiveCalls (pre ++ (cid, cs) :: post) sid =
      (pre ++ post,
       [⟨Target.socket
           (if cs.clientSocketId = sid then cs.staffSocketId else cs.clientSocketId),
         "call-ended",
         [("callId", cid), ("reason", "Other participant disconnected"),
          ("endedBy", "System")]⟩]) := by
  induction pre with
  | nil =>
      simp only [List.nil_append, cleanupActiveCalls, if_pos hcs, if_pos hother]
  | cons e rest ih =>
      have he : ¬(e.2.clientSocketId = sid ∨ e.2.staffSocketId = sid) :=
        hpre e (List.mem_cons_self e rest)
      have ih' := ih (fun x hx => hpre x (List.mem_cons_of_mem e hx))
      obtain ⟨k, v⟩ := e
      simp only [List.cons_append, cleanupActiveCalls, if_neg he, List.append_eq]
      rw [ih']

/-- Witness for C1: with one unbound session before and one after, cleanup
removes exactly the bound session "call1" and emits one `call-ended` to its
peer "s". -/
theorem c1_disconnect_cleanup_witness :
    cleanupActiveCalls
      [("c0", ⟨"c0", "a", "b", 0, "in-progress"⟩),
       ("call1", ⟨"call1", "c", "s", 5, "in-progress"⟩),
       ("call2", ⟨"call2", "d", "t", 6, "in-progress"⟩)] "c" =
      ([("c0", ⟨"c0", "a", "b", 0, "in-progress"⟩),
        ("call2", ⟨"call2", "d", "t", 6, "in-progress"⟩)],
       [⟨Target.socket "s", "call-ended",
         [("callId", "call1"), ("reason", "Other participant disconnected"),
          ("endedBy", "System")]⟩]) := by
  have h := c1_disconnect_cleanup
    [("c0", ⟨"c0", "a", "b", 0, "in-progress"⟩)]
    [("call2", ⟨"call2", "d", "t", 6, "in-progress"⟩)]
    "call1" "c" ⟨"call1", "c", "s", 5, "in-progress"⟩
    (by decide) (by decide) (by decide)
  simpa using h

/-- Claim C1 counterexample: socket "c" is bound to two active sessions;
disconnect handling terminates only the first one — "call2" stays in
`activeCalls` and its staff participant "s2" receives no `call-ended`,
contradicting "every such CallSession is terminated". -/
theorem c1_disconnect_cleanup_counterexample :
    cleanupActiveCalls
      [("call1", ⟨"call1", "c", "s1", 0, "in-progress"⟩),
       ("call2", ⟨"call2", "c", "s2", 0, "in-progress"⟩)] "c" =
      ([("call2", ⟨"call2", "c", "s2", 0, "in-progress"⟩)],
       [⟨Target.socket "s1", "call-ended",
         [("callId", "call1"), ("reason", "Other participant disconnected"),
          ("endedBy", "System")]⟩])
    ∧ ((cleanupActiveCalls
        [("call1", ⟨"call1", "c", "s1", 0, "in-progress"⟩),
         ("call2", ⟨"call2", "c", "s2", 0, "in-progress"⟩)] "c").1.any
          (fun e => e.2.clientSocketId = "c")) = true
    ∧ (∀ e ∈ (cleanupActiveCalls
        [("call1", ⟨"call1", "c", "s1", 0, "in-progress"⟩),
         ("call2", ⟨"call2", "c", "s2", 0, "in-progress"⟩)] "c").2,
        e.target ≠ Target.socket "s2") := by
  refine ⟨by decide, by decide, by decide⟩

/-- Claim C3 (amended): accepting a pending request never checks whether
either connection is already bound to an active CallSession — the session is
inserted unconditionally, the pending request is deleted, and no Conflict or
error event is emitted; a connection can therefore be bound to several active
sessions. -/
theorem c3_create_no_conflict_check (incoming : MapList IncomingCallRequest)
    (ac : MapList CallSession) (sid rid se sn ncid : String) (now : Int)
    (pending : IncomingCallRequest)
    (hlk : mapLookup incoming rid = some pending) :
    (callAccepted incoming ac sid rid se sn ncid now).activeCalls
        = mapSet ac ncid ⟨ncid, pending.clientSocketId, sid, now, "in-progress"⟩
    ∧ (callAccepted incoming ac sid rid se sn ncid now).incomingCallRequests
        = mapDelete incoming rid
    ∧ (∀ e ∈ (callAccepted incoming ac sid rid se sn ncid now).emissions,
        e.event = "call-accepted" ∨ e.event = "call-started"
          ∨ e.event = "staff_status_update") := by
  refine ⟨by simp [callAccepted, hlk], by simp [callAccepted, hlk], ?_⟩
  intro e he
  by_cases hse : se = ""
  · simp [callAccepted, hlk, hse] at he
    rcases he with h | h <;> simp [h]
  · simp [callAccepted, hlk, hse] at he
    rcases he with h | h | h <;> simp [h]

/-- Witness for C3: accepting request "r1" whose client socket "c" is already
bound to session "call0" still inserts a second session "call1" for "c". -/
theorem c3_create_no_conflict_witness :
    (callAccepted [("r1", ⟨"r1", "c", "u1", "Al", "s1@x"⟩)]
        [("call0", ⟨"call0", "c", "t", 0, "in-progress"⟩)]
        "st" "r1" "s1@x" "S1" "call1" 5).activeCalls
      = mapSet [("call0", ⟨"call0", "c", "t", 0, "in-progress"⟩)] "call1"
          ⟨"call1", "c", "st", 5, "in-progress"⟩ :=
  (c3_create_no_conflict_check [("r1", ⟨"r1", "c", "u1", "Al", "s1@x"⟩)]
    [("call0", ⟨"call0", "c", "t", 0, "in-progress"⟩)]
    "st" "r1" "s1@x" "S1" "call1" 5 ⟨"r1", "c", "u1", "Al", "s1@x"⟩ (by decide)).1

/-- Claim C3 counterexample: two pending requests from the same client socket
"c" are both accepted; after the second accept, `activeCalls` holds two
sessions both bound to "c", and no Conflict or error event was emitted by
either accept — the claimed at-most-one-session invariant fails. -/
theorem c3_create_conflict_counterexample :
    (callAccepted
      (callAccepted
        [("r1", ⟨"r1", "c", "u1", "Al", "s1@x"⟩), ("r2", ⟨"r2", "c", "u1", "Al", "s2@x"⟩)]
        [] "st1" "r1" "s1@x" "S1" "call1" 0).incomingCallRequests
      (callAccepted
        [("r1", ⟨"r1", "c", "u1", "Al", "s1@x"⟩), ("r2", ⟨"r2", "c", "u1", "Al", "s2@x"⟩)]
        [] "st1" "r1" "s1@x" "S1" "call1" 0).activeCalls
      "st2" "r2" "s2@x" "S2" "call2" 5).activeCalls
      = [("call1", ⟨"call1", "c", "st1", 0, "in-progress"⟩),
         ("call2", ⟨"call2", "c", "st2", 5, "in-progress"⟩)]
    ∧ (∀ e ∈ (callAccepted
        [("r1", ⟨"r1", "c", "u1", "Al", "s1@x"⟩), ("r2", ⟨"r2", "c", "u1", "Al", "s2@x"⟩)]
        [] "st1" "r1" "s1@x" "S1" "call1" 0).emissions
        ++ (callAccepted
          (callAccepted
            [("r1", ⟨"r1", "c", "u1", "Al", "s1@x"⟩),
             ("r2", ⟨"r2", "c", "u1", "Al", "s2@x"⟩)]
            [] "st1" "r1" "s1@x" "S1" "call1" 0).incomingCallRequests
          (callAccepted
            [("r1", ⟨"r1", "c", "u1", "Al", "s1@x"⟩),
             ("r2", ⟨"r2", "c", "u1", "Al", "s2@x"⟩)]
            [] "st1" "r1" "s1@x" "S1" "call1" 0).activeCalls
          "st2" "r2" "s2@x" "S2" "call2" 5).emissions,
        e.event ≠ "call-error" ∧ e.event ≠ "conflict") := by
  refine ⟨by decide, by decide⟩

theorem mapLookup_callAccepted_after {incoming : MapList IncomingCallRequest}
    {ac : MapList CallSession} {sid rid se sn ncid : String} {now : Int} :
    mapLookup (callAccepted incoming ac sid rid se sn ncid now).incomingCallRequests rid
      = none := by
  unfold callAccepted
  cases h : mapLookup incoming rid with
  | none => simpa using h
  | some pending => simpa using mapLookup_mapDelete_self incoming rid

theorem mapLookup_callRejected_after {incoming : MapList IncomingCallRequest}
    {sid rid se reason : String} :
    mapLookup (callRejected incoming sid rid se reason).1 rid = none := by
  unfold callRejected
  cases h : mapLookup incoming rid with
  | none => simpa using h
  | some pending => simpa using mapLookup_mapDelete_self incoming rid

/-- Claim C4 (amended, for the email-targeted request path): responding twice
to the same `requestId` is a no-op the second time — the first response
(accept or reject) deletes the pending request, so any second accept or
reject finds nothing, changes no state and emits nothing. (The separate
`video-call-response` path has no such guard: see the counterexample.) -/
theorem c4_second_response_noop (incoming : MapList IncomingCallRequest)
    (ac ac2 : MapList CallSession) (sid rid se sn ncid : String) (now : Int)
    (sid2 se2 sn2 ncid2 reason reason2 : String) (now2 : Int) :
    (callAccepted (callAccepted incoming ac sid rid se sn ncid now).incomingCallRequests
        (callAccepted incoming ac sid rid se sn ncid now).activeCalls
        sid2 rid se2 sn2 ncid2 now2
      = ⟨(callAccepted incoming ac sid rid se sn ncid now).incomingCallRequests,
         (callAccepted incoming ac sid rid se sn ncid now).activeCalls, []⟩)
    ∧ (callRejected (callAccepted incoming ac sid rid se sn ncid now).incomingCallRequests
        sid2 rid se2 reason2
      = ((callAccepted incoming ac sid rid se sn ncid now).incomingCallRequests, []))
    ∧ (callAccepted (callRejected incoming sid rid se reason).1 ac2
        sid2 rid se2 sn2 ncid2 now2
      = ⟨(callRejected incoming sid rid se reason).1, ac2, []⟩)
    ∧ (callRejected (callRejected incoming sid rid se reason).1 sid2 rid se2 reason2
      = ((callRejected incoming sid rid se reason).1, [])) := by
  refine ⟨?_, ?_, ?_, ?_⟩
  · conv_lhs => rw [callAccepted.eq_def]
    rw [mapLookup_callAccepted_after]
  · conv_lhs => rw [callRejected.eq_def]
    rw [mapLookup_callAccepted_after]
  · conv_lhs => rw [callAccepted.eq_def]
    rw [mapLookup_callRejected_after]
  · conv_lhs => rw [callRejected.eq_def]
    rw [mapLookup_callRejected_after]

/-- Claim C4 counterexample: the `video-call-response` handler never checks
the request status. Accepting request "r1" a second time re-emits
`video-call-accepted` to the client and creates a second active session with
a fresh callId, so the second accept is not a no-op. -/
theorem c4_video_response_counterexample :
    (videoCallResponse
        [("r1", ⟨"r1", "S", "Dr X", "CSE", "Al", "c", "pending", false⟩)]
        [("S", [⟨"r1", "S", "Dr X", "CSE", "Al", "c", "pending", false⟩])]
        [] "st" "r1" true "S" "call1" 0).videoCallRequests
      = [("r1", ⟨"r1", "S", "Dr X", "CSE", "Al", "c", "accepted", true⟩)]
    ∧ (videoCallResponse
        [("r1", ⟨"r1", "S", "Dr X", "CSE", "Al", "c", "pending", false⟩)]
        [("S", [⟨"r1", "S", "Dr X", "CSE", "Al", "c", "pending", false⟩])]
        [] "st" "r1" true "S" "call1" 0).activeCalls
      = [("call1", ⟨"call1", "c", "st", 0, "connecting"⟩)]
    ∧ (videoCallResponse
        [("r1", ⟨"r1", "S", "Dr X", "CSE", "Al", "c", "accepted", true⟩)]
        [("S", [])] [("call1", ⟨"call1", "c", "st", 0, "connecting"⟩)]
        "st" "r1" true "S" "call2" 5).activeCalls
      = [("call1", ⟨"call1", "c", "st", 0, "connecting"⟩),
         ("call2", ⟨"call2", "c", "st", 5, "connecting"⟩)]
    ∧ ((videoCallResponse
        [("r1", ⟨"r1", "S", "Dr X", "CSE", "Al", "c", "accepted", true⟩)]
        [("S", [])] [("call1", ⟨"call1", "c", "st", 0, "connecting"⟩)]
        "st" "r1" true "S" "call2" 5).emissions.any
          (fun e => e.event = "video-call-accepted" ∧ e.target = Target.socket "c"))
      = true := by
  refine ⟨by decide, by decide, by decide, by decide⟩

/-- Claim C5 (amended): ending a call whose session is no longer in
`activeCalls` (e.g. a second `end-call` after the first removed it) changes
no state, but it is not silent: the handler emits a `call-error` with
message "Call session not found" back to the caller. -/
theorem c5_double_end_emits_error (users : MapList ConnUser)
    (ac : MapList CallSession) (sid callId reason : String) (db pOk : Bool)
    (now : Int) (u : ConnUser)
    (hu : mapLookup users sid = some u)
    (hmiss : mapLookup ac callId = none) :
    endCall users ac sid callId reason db pOk now
      = ⟨ac,
         [⟨Target.socket sid, "call-error", [("message", "Call session not found")]⟩],
         []⟩ := by
  simp [endCall, hu, hmiss]

/-- Witness for C5 at concrete inputs with an empty `activeCalls`. -/
theorem c5_double_end_witness :
    endCall [("c", ⟨"Al", "client", "al@x"⟩)] [] "c" "call1" "done" true true 1000
      = ⟨[],
         [⟨Target.socket "c", "call-error", [("message", "Call session not found")]⟩],
         []⟩ :=
  c5_double_end_emits_error [("c", ⟨"Al", "client", "al@x"⟩)] [] "c" "call1" "done"
    true true 1000 ⟨"Al", "client", "al@x"⟩ (by decide) (by decide)

/-- Claim C5 counterexample: after a first `end-call` for "call1" has removed
the session, the other participant's own `end-call` for the same callId is
answered with a `call-error` event — not the claimed silent, logged-only
no-op. -/
theorem c5_double_end_counterexample :
    (endCall [("c", ⟨"Al", "client", "al@x"⟩), ("s", ⟨"Bo", "staff", "bo@x"⟩)]
        [("call1", ⟨"call1", "c", "s", 0, "in-progress"⟩)]
        "c" "call1" "done" true true 1000).activeCalls = []
    ∧ (endCall [("c", ⟨"Al", "client", "al@x"⟩), ("s", ⟨"Bo", "staff", "bo@x"⟩)]
        [] "s" "call1" "done" true true 2000).emissions
      = [⟨Target.socket "s", "call-error", [("message", "Call session not found")]⟩]
    ∧ (endCall [("c", ⟨"Al", "client", "al@x"⟩), ("s", ⟨"Bo", "staff", "bo@x"⟩)]
        [] "s" "call1" "done" true true 2000).emissions ≠ [] := by
  refine ⟨by decide, by decide, by decide⟩

/-- Claim C8 (amended): for a `Call` document completed by `end-call`, the
recorded duration is the floor of (endTime − startTime) / 1000 — whole
seconds, not the raw millisecond difference — and is non-negative whenever
the end happens no earlier than the start. -/
theorem c8_completed_duration (c : CallDoc) (now : Int) (h : c.startTime ≤ now) :
    (completeCallDoc c now).duration
        = ((completeCallDoc c now).endTime - c.startTime).fdiv 1000
    ∧ 0 ≤ (completeCallDoc c now).duration
    ∧ (completeCallDoc c now).status = "completed" := by
  refine ⟨rfl, ?_, rfl⟩
  simp only [completeCallDoc]
  exact Int.fdiv_nonneg (by omega) (by norm_num)

/-- Witness for C8 at a call started at 0 ms and ended at 1500 ms. -/
theorem c8_completed_duration_witness :
    (0 : Int) ≤ 1500
    ∧ 0 ≤ (completeCallDoc ⟨"c1", 0, 0, 0, "in-progress"⟩ 1500).duration :=
  ⟨by decide,
   (c8_completed_duration ⟨"c1", 0, 0, 0, "in-progress"⟩ 1500 (by decide)).2.1⟩

/-- Claim C8 counterexample: a call started at 0 ms and ended at 1500 ms is
recorded with duration 1 (seconds, floored), while endTime − startTime is
1500 (milliseconds), so `duration == endTime - startTime` fails. -/
theorem c8_duration_counterexample :
    (completeCallDoc ⟨"c1", 0, 0, 0, "in-progress"⟩ 1500).duration = 1
    ∧ (completeCallDoc ⟨"c1", 0, 0, 0, "in-progress"⟩ 1500).endTime
        - (completeCallDoc ⟨"c1", 0, 0, 0, "in-progress"⟩ 1500).startTime = 1500
    ∧ (completeCallDoc ⟨"c1", 0, 0, 0, "in-progress"⟩ 1500).duration
        ≠ (completeCallDoc ⟨"c1", 0, 0, 0, "in-progress"⟩ 1500).endTime
          - (completeCallDoc ⟨"c1", 0, 0, 0, "in-progress"⟩ 1500).startTime := by
  refine ⟨by decide, by decide, by decide⟩

/-- Claim C9: the in-memory effects of `end-call` — the new `activeCalls` and
every socket emission — are identical whether the external `StaffCallLog`
upsert succeeds or fails (the try/catch swallows the failure, which only
skips the write), and for a participant of a live session the session is
removed and both participants receive `call-ended`. -/
theorem c9_persistence_isolated (users : MapList ConnUser)
    (ac : MapList CallSession) (sid callId reason : String) (db : Bool)
    (now : Int) (u : ConnUser) (cs : CallSession) :
    ((endCall users ac sid callId reason db false now).activeCalls
        = (endCall users ac sid callId reason db true now).activeCalls)
    ∧ ((endCall users ac sid callId reason db false now).emissions
        = (endCall users ac sid callId reason db true now).emissions)
    ∧ (mapLookup users sid = some u → mapLookup ac callId = some cs →
        (sid = cs.clientSocketId ∨ sid = cs.staffSocketId) →
        mapLookup (endCall users ac sid callId reason db false now).activeCalls callId
            = none
        ∧ (⟨Target.socket
              (if sid = cs.clientSocketId then cs.staffSocketId else cs.clientSocketId),
            "call-ended",
            [("callId", callId),
             ("reason", if reason = "" then "Call ended by other participant"
                        else reason),
             ("endedBy", u.name)]⟩ : Emission)
            ∈ (endCall users ac sid callId reason db false now).emissions
        ∧ (⟨Target.socket sid, "call-ended",
            [("callId", callId),
             ("reason", if reason = "" then "Call ended" else reason),
             ("endedBy", u.name)]⟩ : Emission)
            ∈ (endCall users ac sid callId reason db false now).emissions) := by
  refine ⟨?_, ?_, ?_⟩
  · cases h1 : mapLookup users sid with
    | none => simp [endCall, h1]
    | some u' =>
        cases h2 : mapLookup ac callId with
        | none => simp [endCall, h1, h2]
        | some cs' =>
            by_cases h3 : sid ≠ cs'.clientSocketId ∧ sid ≠ cs'.staffSocketId <;>
              simp [endCall, h1, h2, h3]
  · cases h1 : mapLookup users sid with
    | none => simp [endCall, h1]
    | some u' =>
        cases h2 : mapLookup ac callId with
        | none => simp [endCall, h1, h2]
        | some cs' =>
            by_cases h3 : sid ≠ cs'.clientSocketId ∧ sid ≠ cs'.staffSocketId <;>
              simp [endCall, h1, h2, h3]
  · intro hu hcs hpart
    have hn : ¬(sid ≠ cs.clientSocketId ∧ sid ≠ cs.staffSocketId) := by tauto
    refine ⟨?_, ?_, ?_⟩ <;>
      simp [endCall, hu, hcs, hn, mapLookup_mapDelete_self]

/-- Witness for C9: a client ending its live call; both participants are
notified and the session is gone, with the persistence flag set to false. -/
theorem c9_persistence_isolated_witness :
    mapLookup
      (endCall [("c", ⟨"Al", "client", "al@x"⟩), ("s", ⟨"Bo", "staff", "bo@x"⟩)]
        [("call1", ⟨"call1", "c", "s", 0, "in-progress"⟩)]
        "c" "call1" "done" true false 1000).activeCalls "call1" = none :=
  ((c9_persistence_isolated
      [("c", ⟨"Al", "client", "al@x"⟩), ("s", ⟨"Bo", "staff", "bo@x"⟩)]
      [("call1", ⟨"call1", "c", "s", 0, "in-progress"⟩)]
      "c" "call1" "done" true 1000 ⟨"Al", "client", "al@x"⟩
      ⟨"call1", "c", "s", 0, "in-progress"⟩).2.2
    (by decide) (by decide) (by decide)).1

theorem filter_newCallRequest_map (sid : String) (l : List QueuedCall) :
    ((l.map (fun c =>
        (⟨Target.socket sid, "new-call-request",
          [("callId", c.callId), ("clientName", c.clientName),
           ("purpose", c.purpose)]⟩ : Emission))).filter
      (fun e => e.event = "new-call-request"))
    = l.map (fun c =>
        (⟨Target.socket sid, "new-call-request",
          [("callId", c.callId), ("clientName", c.clientName),
           ("purpose", c.purpose)]⟩ : Emission)) := by
  induction l with
  | nil => rfl
  | cons a t ih => simp [List.filter, ih]

/-- Claim C7 (amended): on staff login, the `pendingStaffCalls` queue for that
identity is delivered as one `new-call-request` per queued entry, in queue
(= submission, since offline submission appends) order, and the queue is then
emptied, so a second login delivers no `new-call-request`; the
`pendingVideoCalls` map, however, is returned unchanged — its queued requests
are re-announced on every later login until a response removes them (see the
counterexample). -/
theorem c7_login_drain (pendingVC : MapList (List VideoCallRequest))
    (pendingSC : MapList (List QueuedCall)) (u sid sid2 : String) (q : QueuedCall) :
    (loginNotifyPending pendingVC pendingSC u sid).pendingVideoCalls = pendingVC
    ∧ ((loginNotifyPending pendingVC pendingSC u sid).emissions.filter
        (fun e => e.event = "new-call-request"))
      = (mapLookupD pendingSC u []).map (fun c =>
          (⟨Target.socket sid, "new-call-request",
            [("callId", c.callId), ("clientName", c.clientName),
             ("purpose", c.purpose)]⟩ : Emission))
    ∧ mapLookupD (loginNotifyPending pendingVC pendingSC u sid).pendingStaffCalls u []
        = []
    ∧ ((loginNotifyPending
          (loginNotifyPending pendingVC pendingSC u sid).pendingVideoCalls
          (loginNotifyPending pendingVC pendingSC u sid).pendingStaffCalls
          u sid2).emissions.filter
        (fun e => e.event = "new-call-request")) = []
    ∧ mapLookupD (submitStaffCallRequest none pendingSC u q).1 u []
        = mapLookupD pendingSC u [] ++ [q] := by
  have hscafter :
      mapLookupD (loginNotifyPending pendingVC pendingSC u sid).pendingStaffCalls u []
        = [] := by
    by_cases hq : 0 < (mapLookupD pendingSC u []).length
    · have hq' : 0 < ((mapLookup pendingSC u).getD []).length := by
        simpa [mapLookupD] using hq
      simp [loginNotifyPending, mapLookupD, hq', mapLookup_mapSet_self]
    · have h0 : mapLookupD pendingSC u [] = [] := by
        cases he : mapLookupD pendingSC u [] with
        | nil => rfl
        | cons a t => rw [he] at hq; simp at hq
      have h0' : ((mapLookup pendingSC u).getD []).length = 0 := by
        simpa [mapLookupD] using congrArg List.length h0
      simp [loginNotifyPending, mapLookupD, h0', List.length_eq_zero.mp h0']
  refine ⟨rfl, ?_, hscafter, ?_, ?_⟩
  · by_cases hp : 0 < (mapLookupD pendingVC u []).length <;>
      simp [loginNotifyPending, hp, List.filter_append, filter_newCallRequest_map]
  · have hs' : mapLookupD
        (if 0 < (mapLookupD pendingSC u []).length then mapSet pendingSC u []
         else pendingSC) u [] = ([] : List QueuedCall) := by
      simpa [loginNotifyPending] using hscafter
    by_cases hp2 : 0 < (mapLookupD pendingVC u []).length <;>
      simp [loginNotifyPending, hp2, hs', List.filter_append]
  · simp [submitStaffCallRequest, mapLookupD, mapLookup_mapSet_self]

/-- Claim C7 counterexample: a video-call request queued for offline staff "S"
is announced at the first login and announced again, identically, at a second
login — the `pendingVideoCalls` queue is never cleared by login, so queued
requests are not delivered exactly once. -/
theorem c7_redelivery_counterexample :
    (loginNotifyPending
        [("S", [⟨"vr1", "S", "Dr X", "CSE", "Al", "c", "pending", false⟩])]
        [] "S" "k1").emissions
      = [⟨Target.socket "k1", "pending-video-calls", [("requests", "vr1")]⟩]
    ∧ (loginNotifyPending
        (loginNotifyPending
          [("S", [⟨"vr1", "S", "Dr X", "CSE", "Al", "c", "pending", false⟩])]
          [] "S" "k1").pendingVideoCalls
        (loginNotifyPending
          [("S", [⟨"vr1", "S", "Dr X", "CSE", "Al", "c", "pending", false⟩])]
          [] "S" "k1").pendingStaffCalls
        "S" "k2").emissions
      = [⟨Target.socket "k2", "pending-video-calls", [("requests", "vr1")]⟩] := by
  refine ⟨by decide, by decide⟩

end StaffInterface
